import Mathlib

/-!
Verification development for the fantasy-pl-vercel-proxy-rs handler
(src/api/handler.rs): a shallow embedding of the tiered fetch-and-cache
subsystem — the tiered resolver `fetch_with_fallback`, the read-through
cache wrapper `get_cached_or_fetch`, the embedded-snapshot lookup
`load_backup_data`, and the per-resource handlers — together with
theorems about the fallback order, snapshot gating, cache behaviour and
cache-key construction.

Network I/O is modelled by a `World` function assigning to each URL the
outcome of one HTTP GET; JSON payloads are an inductive mirroring
serde_json::Value; the moka cache (an external dependency configured in
`get_cache` with max_capacity 1000 and a 600-second time-to-live) is
modelled from the spec as an association list of timestamped entries.
-/

/-- JSON values, mirroring serde_json::Value (Null, Bool, Number, String,
Array, Object). The handler treats payloads opaquely. -/
inductive Json where
  | null
  | bool (b : Bool)
  | num (n : Int)
  | str (s : String)
  | arr (xs : List Json)
  | obj (fields : List (String × Json))

/-- Outcome of one HTTP GET against a URL, as classified by the code in
`fetch_with_fallback`: either a response with a status code and, for the
body, the result of JSON parsing (`none` means the body failed to parse),
or a transport-level failure (connection/DNS/timeout, the `Err` branch of
`client.get(url).send().await`). -/
inductive FetchResult where
  | ok (status : Nat) (body : Option Json)
  | err

/-- A network environment: what one GET of each URL returns during a
single resolution. -/
def World : Type := String → FetchResult

/-- Parse results of the three backup JSON files embedded at compile time
and read by `load_backup_data` (`serde_json::from_str(...).ok()`; `none`
means the embedded file failed to parse). -/
structure BackupFiles where
  bootstrapStatic : Option Json
  fixtures : Option Json
  liveEvent : Option Json

/-- Constant FPL_API_BASE from handler.rs. -/
def FPL_API_BASE : String := "https://fantasy.premierleague.com/api"

/-- Constant BACKUP_API_BASE from handler.rs. -/
def BACKUP_API_BASE : String := "https://fpl-static-data.vercel.app"

/-- Constant BACKUP_SEASON from handler.rs. -/
def BACKUP_SEASON : String := "2025-2026"

/-- Cache time-to-live in seconds (BOOTSTRAP_CACHE_DURATION, 10 minutes). -/
def BOOTSTRAP_CACHE_DURATION : Nat := 600

/-- Maximum cache capacity configured in `get_cache` (max_capacity 1000). -/
def MAX_CAPACITY : Nat := 1000

/-- The uniform terminal error string returned by `fetch_with_fallback`
when every tier has failed. -/
def EXHAUSTED_MSG : String := "Failed to fetch data from all available sources"

/-- Embedding of `load_backup_data`: the local snapshot store maps the
three known endpoint names to the parse results of their embedded files
and every other key to `None`. -/
def load_backup_data (b : BackupFiles) : String → Option Json
  | "bootstrap-static" => b.bootstrapStatic
  | "fixtures" => b.fixtures
  | "live-event" => b.liveEvent
  | _ => none

/-- reqwest StatusCode::is_success: the status is in the 2xx range. -/
def is_success (status : Nat) : Bool :=
  decide (200 ≤ status) && decide (status < 300)

/-- Payload produced by one GET attempt in `fetch_with_fallback`: a
payload is obtained exactly when the response is 2xx and its body parses
as JSON. Used verbatim for both the primary and the backup (mirror)
attempt, whose code in the source is duplicated. -/
def attempt_payload (world : World) (url : String) : Option Json :=
  match world url with
  | .ok status body => if is_success status then body else none
  | .err => none

/-- Value of the `is_503_error` flag after the primary attempt: set on an
HTTP 503 response or on a transport failure, and on nothing else. Only
the primary attempt writes this flag in the source. -/
def primary_overload (world : World) (url : String) : Bool :=
  match world url with
  | .ok status _ => if is_success status then false else status == 503
  | .err => true

/-- Which optional tiers a resolution actually consulted:
whether the backup (mirror) URL was fetched, and whether
`load_backup_data` was invoked on the local snapshot store. -/
structure FetchTrace where
  mirror_tried : Bool
  snapshot_tried : Bool

/-- Final step of `fetch_with_fallback` (lines 109-119): if
`is_503_error` was set and a local backup endpoint is configured, consult
`load_backup_data`; return its payload when found, otherwise (and in
every other case) return the exhaustion error. -/
def snapshot_tier (b : BackupFiles) (is_503_error : Bool)
    (local_backup : Option String) (mirror_tried : Bool) :
    Except String Json × FetchTrace :=
  if is_503_error then
    match local_backup with
    | some endpoint =>
      match load_backup_data b endpoint with
      | some data => (Except.ok data, ⟨mirror_tried, true⟩)
      | none => (Except.error EXHAUSTED_MSG, ⟨mirror_tried, true⟩)
    | none => (Except.error EXHAUSTED_MSG, ⟨mirror_tried, false⟩)
  else (Except.error EXHAUSTED_MSG, ⟨mirror_tried, false⟩)

/-- Embedding of `fetch_with_fallback`, instrumented with a trace of
which optional tiers were consulted. Control flow mirrors the source:
try the primary URL and return on success, recording the overload flag;
then try the backup URL if present and return on success; then the
snapshot tier gated on the overload flag; otherwise the exhaustion
error. -/
def fetch_with_fallback_traced (world : World) (b : BackupFiles)
    (primary_url : String) (backup_url : Option String)
    (local_backup : Option String) : Except String Json × FetchTrace :=
  match attempt_payload world primary_url with
  | some data => (Except.ok data, ⟨false, false⟩)
  | none =>
    match backup_url with
    | some url =>
      match attempt_payload world url with
      | some data => (Except.ok data, ⟨true, false⟩)
      | none => snapshot_tier b (primary_overload world primary_url) local_backup true
    | none => snapshot_tier b (primary_overload world primary_url) local_backup false

/-- The result of `fetch_with_fallback` as seen by its callers (the trace
projected away). -/
def fetch_with_fallback (world : World) (b : BackupFiles)
    (primary_url : String) (backup_url : Option String)
    (local_backup : Option String) : Except String Json :=
  (fetch_with_fallback_traced world b primary_url backup_url local_backup).1

/-- Modelled from the spec: state of the moka cache (the cache library is
an external dependency, only configured in `get_cache`), as a list of
entries (key, payload, insertion time in seconds), newest first. -/
def CacheState : Type := List (String × Json × Nat)

/-- The cache at process start: no entries. -/
def emptyCache : CacheState := []

/-- Modelled from the spec: cache lookup. An entry is visible while its
age is below the 600-second time-to-live; expired entries are logically
absent. -/
def cache_get (st : CacheState) (now : Nat) (key : String) : Option Json :=
  match st.find? (fun e =>
      e.1 == key && decide (now < e.2.2 + BOOTSTRAP_CACHE_DURATION)) with
  | some e => some e.2.1
  | none => none

/-- Modelled from the spec: cache insertion. The new entry replaces any
entry with the same key; when the bound of 1000 entries would be
exceeded, eviction keeps the most recent entries (an approximation of
the least-recently-used policy; the observable contract is only the
bound). -/
def cache_insert (st : CacheState) (now : Nat) (key : String)
    (value : Json) : CacheState :=
  (key, value, now) :: (st.filter (fun e => e.1 != key)).take (MAX_CAPACITY - 1)

/-- Result of one handler invocation: the response, the cache state
afterwards, and whether `fetch_with_fallback` was executed (network
I/O happened). -/
structure HandlerResult where
  response : Except String Json
  cache : CacheState
  fetched : Bool

/-- Embedding of `get_cached_or_fetch`: return a fresh unexpired cache
entry if present; otherwise run the tiered resolver, store a successful
payload under the key, and propagate a failure without touching the
cache. -/
def get_cached_or_fetch (world : World) (b : BackupFiles) (st : CacheState)
    (now : Nat) (cache_key : String) (primary_url : String)
    (backup_url : Option String) (local_backup : Option String) :
    HandlerResult :=
  match cache_get st now cache_key with
  | some cached_data => ⟨Except.ok cached_data, st, false⟩
  | none =>
    match fetch_with_fallback world b primary_url backup_url local_backup with
    | Except.ok data => ⟨Except.ok data, cache_insert st now cache_key data, true⟩
    | Except.error e => ⟨Except.error e, st, true⟩

/-- Primary URL built by `handle_bootstrap_static`. -/
def bootstrap_static_url : String := FPL_API_BASE ++ "/bootstrap-static/"

/-- Backup URL built by `handle_bootstrap_static`. -/
def bootstrap_backup_url : String :=
  BACKUP_API_BASE ++ "/" ++ BACKUP_SEASON ++ "/bootstrap-static.json"

/-- Primary URL built by `handle_fixtures`. -/
def fixtures_url : String := FPL_API_BASE ++ "/fixtures/"

/-- Backup URL built by `handle_fixtures`. -/
def fixtures_backup_url : String :=
  BACKUP_API_BASE ++ "/" ++ BACKUP_SEASON ++ "/fixtures.json"

/-- URL built by `handle_element_summary`. -/
def element_summary_url (id : String) : String :=
  FPL_API_BASE ++ "/element-summary/" ++ id ++ "/"

/-- URL built by `handle_live_event`. -/
def live_event_url (gw : String) : String :=
  FPL_API_BASE ++ "/event/" ++ gw ++ "/live/"

/-- URL built by `handle_picks`. -/
def picks_url (manager_id gw : String) : String :=
  FPL_API_BASE ++ "/entry/" ++ manager_id ++ "/event/" ++ gw ++ "/picks/"

/-- URL built by `handle_manager_info`. -/
def manager_info_url (id : String) : String :=
  FPL_API_BASE ++ "/entry/" ++ id ++ "/"

/-- URL built by `handle_manager_transfers`. -/
def manager_transfers_url (id : String) : String :=
  FPL_API_BASE ++ "/entry/" ++ id ++ "/transfers/"

/-- URL built by `handle_manager_history`. -/
def manager_history_url (id : String) : String :=
  FPL_API_BASE ++ "/entry/" ++ id ++ "/history/"

/-- URL built by `handle_league_standings`. -/
def league_standings_url (league_id page : String) : String :=
  FPL_API_BASE ++ "/leagues-classic/" ++ league_id ++
    "/standings/?page_standings=" ++ page

/-- URL built by `handle_league_standings_by_phase`. -/
def league_standings_by_phase_url (league_id phase : String) : String :=
  FPL_API_BASE ++ "/leagues-classic/" ++ league_id ++
    "/standings/?page_standings=1&phase=" ++ phase

/-- Cache key used by `handle_bootstrap_static`. -/
def bootstrap_cache_key : String := "bootstrap-static"

/-- Cache key built by `handle_live_event` (live-event-<gw>). -/
def live_event_cache_key (gw : String) : String := "live-event-" ++ gw

/-- Cache key built by `handle_picks` (picks-<manager_id>-<gw>). -/
def picks_cache_key (manager_id gw : String) : String :=
  "picks-" ++ manager_id ++ "-" ++ gw

/-- Embedding of `handle_bootstrap_static`: cached, with mirror and local
snapshot. -/
def handle_bootstrap_static (world : World) (b : BackupFiles)
    (st : CacheState) (now : Nat) : HandlerResult :=
  get_cached_or_fetch world b st now bootstrap_cache_key
    bootstrap_static_url (some bootstrap_backup_url) (some "bootstrap-static")

/-- Embedding of `handle_fixtures`: calls `fetch_with_fallback` directly
(mirror and local snapshot, no cache). -/
def handle_fixtures (world : World) (b : BackupFiles) (st : CacheState)
    (now : Nat) : HandlerResult :=
  ⟨fetch_with_fallback world b fixtures_url (some fixtures_backup_url)
    (some "fixtures"), st, true⟩

/-- Embedding of `handle_element_summary`: calls `fetch_with_fallback`
directly, no mirror, no snapshot, no cache. -/
def handle_element_summary (world : World) (b : BackupFiles)
    (st : CacheState) (now : Nat) (id : String) : HandlerResult :=
  ⟨fetch_with_fallback world b (element_summary_url id) none none, st, true⟩

/-- Embedding of `handle_live_event`: cached per gameweek, no mirror,
local snapshot key "live-event" for every gameweek. -/
def handle_live_event (world : World) (b : BackupFiles) (st : CacheState)
    (now : Nat) (gw : String) : HandlerResult :=
  get_cached_or_fetch world b st now (live_event_cache_key gw)
    (live_event_url gw) none (some "live-event")

/-- Embedding of `handle_picks`: cached per manager and gameweek, no
mirror, no snapshot. -/
def handle_picks (world : World) (b : BackupFiles) (st : CacheState)
    (now : Nat) (manager_id gw : String) : HandlerResult :=
  get_cached_or_fetch world b st now (picks_cache_key manager_id gw)
    (picks_url manager_id gw) none none

/-- Embedding of `handle_manager_info`: direct fetch, no mirror, no
snapshot, no cache. -/
def handle_manager_info (world : World) (b : BackupFiles) (st : CacheState)
    (now : Nat) (id : String) : HandlerResult :=
  ⟨fetch_with_fallback world b (manager_info_url id) none none, st, true⟩

/-- Embedding of `handle_manager_transfers`: direct fetch, no mirror, no
snapshot, no cache. -/
def handle_manager_transfers (world : World) (b : BackupFiles)
    (st : CacheState) (now : Nat) (id : String) : HandlerResult :=
  ⟨fetch_with_fallback world b (manager_transfers_url id) none none, st, true⟩

/-- Embedding of `handle_manager_history`: direct fetch, no mirror, no
snapshot, no cache. -/
def handle_manager_history (world : World) (b : BackupFiles)
    (st : CacheState) (now : Nat) (id : String) : HandlerResult :=
  ⟨fetch_with_fallback world b (manager_history_url id) none none, st, true⟩

/-- Embedding of `handle_league_standings`: direct fetch, no mirror, no
snapshot, no cache. -/
def handle_league_standings (world : World) (b : BackupFiles)
    (st : CacheState) (now : Nat) (league_id page : String) : HandlerResult :=
  ⟨fetch_with_fallback world b (league_standings_url league_id page)
    none none, st, true⟩

/-- Embedding of `handle_league_standings_by_phase`: direct fetch, no
mirror, no snapshot, no cache. -/
def handle_league_standings_by_phase (world : World) (b : BackupFiles)
    (st : CacheState) (now : Nat) (league_id phase : String) : HandlerResult :=
  ⟨fetch_with_fallback world b (league_standings_by_phase_url league_id phase)
    none none, st, true⟩

/-- A bounded-status non-success response produces no payload. -/
theorem attempt_payload_eq_none_of_failure (world : World) (url : String)
    (status : Nat) (body : Option Json)
    (hw : world url = FetchResult.ok status body)
    (hs : is_success status = false) :
    attempt_payload world url = none := by
  simp [attempt_payload, hw, hs]

/-- A primary attempt that set the overload flag produced no payload. -/
theorem attempt_payload_eq_none_of_overload (world : World) (url : String)
    (h : primary_overload world url = true) :
    attempt_payload world url = none := by
  unfold primary_overload at h
  unfold attempt_payload
  cases hw : world url with
  | ok status body =>
    rw [hw] at h
    by_cases hs : is_success status = true
    · simp [hs] at h
    · simp only [Bool.not_eq_true] at hs
      simp [hs]
  | err => rfl

/-- A primary failure with a non-503 status leaves the overload flag
clear. -/
theorem primary_overload_eq_false_of_other_status (world : World)
    (url : String) (status : Nat) (body : Option Json)
    (hw : world url = FetchResult.ok status body)
    (hs : is_success status = false) (h503 : status ≠ 503) :
    primary_overload world url = false := by
  simp [primary_overload, hw, hs, h503]

/-- A primary 503 response or transport failure sets the overload flag. -/
theorem primary_overload_eq_true_of_signal (world : World) (url : String)
    (h : (∃ body, world url = FetchResult.ok 503 body) ∨
      world url = FetchResult.err) :
    primary_overload world url = true := by
  rcases h with ⟨body, hw⟩ | hw
  · simp [primary_overload, hw, is_success]
  · simp [primary_overload, hw]

/-- C1: in fetch_with_fallback the local snapshot tier is consulted only
after a primary overload signal. If the primary fails with a non-503
status and the mirror is absent or also yields no payload, the resolver
returns the exhaustion error even though a snapshot is present for the
key; if the primary fails with 503 or a transport error, the mirror is
absent or yields no payload, and the snapshot key is present in the
store, the resolver returns the snapshot payload. -/
theorem claim1_snapshot_gated_on_primary_overload :
    (∀ (world : World) (b : BackupFiles) (p : String) (bu : Option String)
        (key : String) (status : Nat) (body : Option Json) (snap : Json),
        world p = FetchResult.ok status body →
        is_success status = false →
        status ≠ 503 →
        (∀ u, bu = some u → attempt_payload world u = none) →
        load_backup_data b key = some snap →
        fetch_with_fallback world b p bu (some key) =
          Except.error EXHAUSTED_MSG) ∧
    (∀ (world : World) (b : BackupFiles) (p : String) (bu : Option String)
        (key : String) (snap : Json),
        ((∃ body, world p = FetchResult.ok 503 body) ∨
          world p = FetchResult.err) →
        (∀ u, bu = some u → attempt_payload world u = none) →
        load_backup_data b key = some snap →
        fetch_with_fallback world b p bu (some key) = Except.ok snap) := by
  constructor
  · intro world b p bu key status body snap hw hs h503 hmr hsnap
    have hap : attempt_payload world p = none :=
      attempt_payload_eq_none_of_failure world p status body hw hs
    have hov : primary_overload world p = false :=
      primary_overload_eq_false_of_other_status world p status body hw hs h503
    cases bu with
    | none =>
      simp [fetch_with_fallback, fetch_with_fallback_traced, hap, hov,
        snapshot_tier]
    | some u =>
      have hu := hmr u rfl
      simp [fetch_with_fallback, fetch_with_fallback_traced, hap, hu, hov,
        snapshot_tier]
  · intro world b p bu key snap hfail hmr hsnap
    have hov : primary_overload world p = true :=
      primary_overload_eq_true_of_signal world p hfail
    have hap : attempt_payload world p = none :=
      attempt_payload_eq_none_of_overload world p hov
    cases bu with
    | none =>
      simp [fetch_with_fallback, fetch_with_fallback_traced, hap, hov,
        snapshot_tier, hsnap]
    | some u =>
      have hu := hmr u rfl
      simp [fetch_with_fallback, fetch_with_fallback_traced, hap, hu, hov,
        snapshot_tier, hsnap]

/-- C3: the mirror outcome never affects the overload signal. If the
primary fails with a non-2xx, non-503 status and the mirror then fails
with HTTP 503 or a transport error, the resolver does not consult the
local snapshot store (whatever snapshot key is configured) and returns
the exhaustion error. -/
theorem claim3_mirror_outcome_ignored :
    ∀ (world : World) (b : BackupFiles) (p u : String)
      (lb : Option String) (status : Nat) (body : Option Json),
      world p = FetchResult.ok status body →
      is_success status = false →
      status ≠ 503 →
      ((∃ body2, world u = FetchResult.ok 503 body2) ∨
        world u = FetchResult.err) →
      fetch_with_fallback_traced world b p (some u) lb =
        (Except.error EXHAUSTED_MSG, ⟨true, false⟩) := by
  intro world b p u lb status body hw hs h503 hmirror
  have hap : attempt_payload world p = none :=
    attempt_payload_eq_none_of_failure world p status body hw hs
  have hov : primary_overload world p = false :=
    primary_overload_eq_false_of_other_status world p status body hw hs h503
  have hau : attempt_payload world u = none := by
    rcases hmirror with ⟨body2, hu⟩ | hu
    · exact attempt_payload_eq_none_of_failure world u 503 body2 hu (by decide)
    · simp [attempt_payload, hu]
  cases lb with
  | none =>
    simp [fetch_with_fallback_traced, hap, hau, hov, snapshot_tier]
  | some key =>
    simp [fetch_with_fallback_traced, hap, hau, hov, snapshot_tier]

/-- C4: the fallback chain is strictly ordered and short-circuits on the
first success. A primary 2xx response with a parsable body is returned
with neither the mirror nor the snapshot consulted; when the primary
yields no payload and the mirror yields a parsable 2xx payload, that
payload is returned and the snapshot store is never consulted. -/
theorem claim4_fallback_short_circuits :
    (∀ (world : World) (b : BackupFiles) (p : String)
        (bu lb : Option String) (status : Nat) (data : Json),
        world p = FetchResult.ok status (some data) →
        is_success status = true →
        fetch_with_fallback_traced world b p bu lb =
          (Except.ok data, ⟨false, false⟩)) ∧
    (∀ (world : World) (b : BackupFiles) (p u : String)
        (lb : Option String) (status : Nat) (data : Json),
        attempt_payload world p = none →
        world u = FetchResult.ok status (some data) →
        is_success status = true →
        fetch_with_fallback_traced world b p (some u) lb =
          (Except.ok data, ⟨true, false⟩)) := by
  constructor
  · intro world b p bu lb status data hw hs
    have hap : attempt_payload world p = some data := by
      simp [attempt_payload, hw, hs]
    simp [fetch_with_fallback_traced, hap]
  · intro world b p u lb status data hap hu hs
    have hau : attempt_payload world u = some data := by
      simp [attempt_payload, hu, hs]
    simp [fetch_with_fallback_traced, hap, hau]

/-- Concrete backup files for witnesses: all three embedded snapshots
parse, each to a distinct marker payload. -/
def bEx : BackupFiles :=
  ⟨some (Json.str "bootstrap-backup"), some (Json.str "fixtures-backup"),
    some (Json.str "live-event-backup")⟩

/-- The scenario payload from the spec: events, teams, elements. -/
def payloadP : Json :=
  Json.obj [("events", Json.arr []), ("teams", Json.arr []),
    ("elements", Json.arr [])]

/-- A network in which every GET fails at the transport level. -/
def wDead : World := fun _ => FetchResult.err

/-- A network in which the bootstrap primary URL returns 404 with an
unparsable body and everything else fails at the transport level. -/
def w404 : World := fun url =>
  if url == bootstrap_static_url then FetchResult.ok 404 none
  else FetchResult.err

/-- A network in which the bootstrap primary URL returns 200 with the
scenario payload and everything else fails at the transport level. -/
def wPrimaryOk : World := fun url =>
  if url == bootstrap_static_url then FetchResult.ok 200 (some payloadP)
  else FetchResult.err

/-- A network in which the bootstrap primary URL returns 503 and the
bootstrap mirror URL returns 200 with the scenario payload. -/
def wMirrorOk : World := fun url =>
  if url == bootstrap_static_url then FetchResult.ok 503 none
  else if url == bootstrap_backup_url then FetchResult.ok 200 (some payloadP)
  else FetchResult.err

/-- A network in which the bootstrap primary URL returns 404 and the
bootstrap mirror URL returns 503. -/
def wMirror503 : World := fun url =>
  if url == bootstrap_static_url then FetchResult.ok 404 none
  else if url == bootstrap_backup_url then FetchResult.ok 503 none
  else FetchResult.err

/-- Witness for C1: with a 404 primary, no mirror and a present
bootstrap snapshot the resolver is exhausted; with a transport-failing
primary, no mirror and the same snapshot it returns the snapshot
payload. -/
theorem claim1_witness :
    fetch_with_fallback w404 bEx bootstrap_static_url none
      (some "bootstrap-static") = Except.error EXHAUSTED_MSG ∧
    fetch_with_fallback wDead bEx bootstrap_static_url none
      (some "bootstrap-static") = Except.ok (Json.str "bootstrap-backup") :=
  ⟨claim1_snapshot_gated_on_primary_overload.1 w404 bEx bootstrap_static_url
      none "bootstrap-static" 404 none (Json.str "bootstrap-backup") rfl rfl
      (by decide) (fun u h => nomatch h) rfl,
    claim1_snapshot_gated_on_primary_overload.2 wDead bEx bootstrap_static_url
      none "bootstrap-static" (Json.str "bootstrap-backup") (Or.inr rfl)
      (fun u h => nomatch h) rfl⟩

/-- Witness for C3: a 404 primary followed by a 503 mirror, with the
bootstrap snapshot present, still yields exhaustion without consulting
the snapshot store. -/
theorem claim3_witness :
    fetch_with_fallback_traced wMirror503 bEx bootstrap_static_url
      (some bootstrap_backup_url) (some "bootstrap-static") =
      (Except.error EXHAUSTED_MSG, ⟨true, false⟩) :=
  claim3_mirror_outcome_ignored wMirror503 bEx bootstrap_static_url
    bootstrap_backup_url (some "bootstrap-static") 404 none rfl rfl
    (by decide) (Or.inl ⟨none, rfl⟩)

/-- Witness for C4: a successful primary short-circuits everything; a
503 primary with a successful mirror returns the mirror payload without
consulting the snapshot store. -/
theorem claim4_witness :
    fetch_with_fallback_traced wPrimaryOk bEx bootstrap_static_url
      (some bootstrap_backup_url) (some "bootstrap-static") =
      (Except.ok payloadP, ⟨false, false⟩) ∧
    fetch_with_fallback_traced wMirrorOk bEx bootstrap_static_url
      (some bootstrap_backup_url) (some "bootstrap-static") =
      (Except.ok payloadP, ⟨true, false⟩) :=
  ⟨claim4_fallback_short_circuits.1 wPrimaryOk bEx bootstrap_static_url
      (some bootstrap_backup_url) (some "bootstrap-static") 200 payloadP rfl
      rfl,
    claim4_fallback_short_circuits.2 wMirrorOk bEx bootstrap_static_url
      bootstrap_backup_url (some "bootstrap-static") 200 payloadP rfl rfl rfl⟩

/-- A freshly inserted entry is returned by a lookup within the
time-to-live window. -/
theorem cache_get_insert_self (st : CacheState) (now now2 : Nat)
    (k : String) (v : Json)
    (h : now2 < now + BOOTSTRAP_CACHE_DURATION) :
    cache_get (cache_insert st now k v) now2 k = some v := by
  unfold cache_get cache_insert
  rw [List.find?_cons_of_pos _ (by simp [h])]

/-- A key that is absent (or expired) at one time is still absent at any
later time, as long as nothing was inserted in between. -/
theorem cache_get_none_mono (st : CacheState) (now1 now2 : Nat)
    (k : String) (h12 : now1 ≤ now2)
    (h : cache_get st now1 k = none) :
    cache_get st now2 k = none := by
  unfold cache_get at h ⊢
  cases hf : st.find? (fun e =>
      e.1 == k && decide (now1 < e.2.2 + BOOTSTRAP_CACHE_DURATION)) with
  | some e => rw [hf] at h; exact absurd h (by simp)
  | none =>
    have hall := List.find?_eq_none.mp hf
    have hnone2 : st.find? (fun e =>
        e.1 == k && decide (now2 < e.2.2 + BOOTSTRAP_CACHE_DURATION)) = none := by
      refine List.find?_eq_none.mpr ?_
      intro x hx
      have h1 := hall x hx
      simp only [Bool.and_eq_true, beq_iff_eq, decide_eq_true_eq, not_and] at h1 ⊢
      intro hk hlt
      exact h1 hk (lt_of_le_of_lt h12 hlt)
    rw [hnone2]

/-- C5: cache hits avoid recomputation. After one successful
get_cached_or_fetch stores a payload under a key, a second call for the
same key within the 600-second time-to-live window — with any network
environment, backup files and URLs — returns the stored payload and does
not execute fetch_with_fallback. -/
theorem claim5_cache_hit_avoids_io :
    ∀ (world1 world2 : World) (b1 b2 : BackupFiles) (st : CacheState)
      (now1 now2 : Nat) (k p1 p2 : String) (bu1 bu2 lb1 lb2 : Option String)
      (data : Json),
      cache_get st now1 k = none →
      fetch_with_fallback world1 b1 p1 bu1 lb1 = Except.ok data →
      now2 < now1 + BOOTSTRAP_CACHE_DURATION →
      get_cached_or_fetch world1 b1 st now1 k p1 bu1 lb1 =
        ⟨Except.ok data, cache_insert st now1 k data, true⟩ ∧
      get_cached_or_fetch world2 b2 (cache_insert st now1 k data) now2 k
          p2 bu2 lb2 =
        ⟨Except.ok data, cache_insert st now1 k data, false⟩ := by
  intro world1 world2 b1 b2 st now1 now2 k p1 p2 bu1 bu2 lb1 lb2 data
    hmiss hfetch httl
  constructor
  · simp [get_cached_or_fetch, hmiss, hfetch]
  · simp [get_cached_or_fetch,
      cache_get_insert_self st now1 now2 k data httl]

/-- C6: no negative caching. When the tiered resolver fails, the error
is returned and the cache is left unchanged, so an immediately following
call for the same key with a now-succeeding resolver performs the fetch,
succeeds and stores the result. -/
theorem claim6_no_negative_caching :
    ∀ (world1 world2 : World) (b1 b2 : BackupFiles) (st : CacheState)
      (now1 now2 : Nat) (k p1 p2 : String) (bu1 bu2 lb1 lb2 : Option String)
      (e : String) (data : Json),
      cache_get st now1 k = none →
      now1 ≤ now2 →
      fetch_with_fallback world1 b1 p1 bu1 lb1 = Except.error e →
      fetch_with_fallback world2 b2 p2 bu2 lb2 = Except.ok data →
      get_cached_or_fetch world1 b1 st now1 k p1 bu1 lb1 =
        ⟨Except.error e, st, true⟩ ∧
      get_cached_or_fetch world2 b2 st now2 k p2 bu2 lb2 =
        ⟨Except.ok data, cache_insert st now2 k data, true⟩ := by
  intro world1 world2 b1 b2 st now1 now2 k p1 p2 bu1 bu2 lb1 lb2 e data
    hmiss h12 hfail hok
  have hmiss2 : cache_get st now2 k = none :=
    cache_get_none_mono st now1 now2 k h12 hmiss
  constructor
  · simp [get_cached_or_fetch, hmiss, hfail]
  · simp [get_cached_or_fetch, hmiss2, hok]

/-- Witness for C5: a first bootstrap fetch at time 0 stores the
scenario payload; a second call at time 1 against a dead network still
returns it without fetching. -/
theorem claim5_witness :
    get_cached_or_fetch wPrimaryOk bEx emptyCache 0 "k" bootstrap_static_url
      none none =
      ⟨Except.ok payloadP, cache_insert emptyCache 0 "k" payloadP, true⟩ ∧
    get_cached_or_fetch wDead bEx (cache_insert emptyCache 0 "k" payloadP) 1
      "k" bootstrap_static_url none none =
      ⟨Except.ok payloadP, cache_insert emptyCache 0 "k" payloadP, false⟩ :=
  claim5_cache_hit_avoids_io wPrimaryOk wDead bEx bEx emptyCache 0 1 "k"
    bootstrap_static_url bootstrap_static_url none none none none payloadP
    rfl rfl (by decide)

/-- Witness for C6: a failing fetch at time 0 leaves the cache empty and
returns the exhaustion error; the retry at time 1 against a healthy
network fetches, succeeds and stores. -/
theorem claim6_witness :
    get_cached_or_fetch wDead bEx emptyCache 0 "k2" bootstrap_static_url
      none none = ⟨Except.error EXHAUSTED_MSG, emptyCache, true⟩ ∧
    get_cached_or_fetch wPrimaryOk bEx emptyCache 1 "k2" bootstrap_static_url
      none none =
      ⟨Except.ok payloadP, cache_insert emptyCache 1 "k2" payloadP, true⟩ :=
  claim6_no_negative_caching wDead wPrimaryOk bEx bEx emptyCache 0 1 "k2"
    bootstrap_static_url bootstrap_static_url none none none none
    EXHAUSTED_MSG payloadP rfl (by decide) rfl rfl

/-- A network in which the picks URL for manager 1, gameweek 2 returns
200 with the scenario payload and everything else fails at the transport
level. -/
def wPicksOk : World := fun url =>
  if url == picks_url "1" "2" then FetchResult.ok 200 (some payloadP)
  else FetchResult.err

/-- A cache state holding a picks payload for manager 1, gameweek 2,
inserted at time 0. -/
def stPicksCached : CacheState :=
  [(picks_cache_key "1" "2", Json.str "cached-picks", 0)]

/-- Counterexample to C2: picks requests do interact with the cache.
Resolving picks for manager 1, gameweek 2 against an empty cache writes
an entry (the cache state afterwards is not the empty state), and
resolving against a cache holding the key returns the cached payload
with no fetch at all — the handler both writes to and reads from the
cache. -/
theorem claim2_counterexample :
    (handle_picks wPicksOk bEx emptyCache 0 "1" "2").cache ≠ emptyCache ∧
    (handle_picks wDead bEx stPicksCached 0 "1" "2").response =
      Except.ok (Json.str "cached-picks") ∧
    (handle_picks wDead bEx stPicksCached 0 "1" "2").fetched = false := by
  refine ⟨?_, rfl, rfl⟩
  intro h
  have h2 : (picks_cache_key "1" "2", payloadP, 0) ::
      ([] : List (String × Json × Nat)) = [] := h
  exact List.cons_ne_nil _ _ h2

/-- C2 as amended: per-manager picks requests use the cache rather than
bypassing it. handle_picks reads the cache under the key
picks-<manager>-<gw>: a fresh cached entry is returned without invoking
the resolver, and on a miss the resolver runs (primary tier only: no
mirror URL, no snapshot key) and a successful payload is stored under
that key. -/
theorem claim2_amended_picks_use_cache :
    (∀ (world : World) (b : BackupFiles) (st : CacheState) (now : Nat)
        (m gw : String) (data : Json),
        cache_get st now (picks_cache_key m gw) = some data →
        handle_picks world b st now m gw = ⟨Except.ok data, st, false⟩) ∧
    (∀ (world : World) (b : BackupFiles) (st : CacheState) (now : Nat)
        (m gw : String) (data : Json),
        cache_get st now (picks_cache_key m gw) = none →
        fetch_with_fallback world b (picks_url m gw) none none =
          Except.ok data →
        handle_picks world b st now m gw =
          ⟨Except.ok data,
            cache_insert st now (picks_cache_key m gw) data, true⟩) := by
  constructor
  · intro world b st now m gw data hhit
    simp [handle_picks, get_cached_or_fetch, hhit]
  · intro world b st now m gw data hmiss hfetch
    simp [handle_picks, get_cached_or_fetch, hmiss, hfetch]

/-- Witness for the amended C2: a cached picks entry is served without a
fetch, and a miss against a healthy picks endpoint stores the payload. -/
theorem claim2_witness :
    handle_picks wDead bEx stPicksCached 0 "1" "2" =
      ⟨Except.ok (Json.str "cached-picks"), stPicksCached, false⟩ ∧
    handle_picks wPicksOk bEx emptyCache 0 "1" "2" =
      ⟨Except.ok payloadP,
        cache_insert emptyCache 0 (picks_cache_key "1" "2") payloadP,
        true⟩ :=
  ⟨claim2_amended_picks_use_cache.1 wDead bEx stPicksCached 0 "1" "2"
      (Json.str "cached-picks") rfl,
    claim2_amended_picks_use_cache.2 wPicksOk bEx emptyCache 0 "1" "2"
      payloadP rfl rfl⟩

/-- C9: only the bootstrap-static, live-event and picks handlers
interact with the cache. Every fixtures, element-summary, manager
info/transfers/history and league-standings request leaves the cache
state unchanged and always runs the full fallback chain via
fetch_with_fallback, whatever the cache contains. -/
theorem claim9_uncached_handlers_frame :
    ∀ (world : World) (b : BackupFiles) (st : CacheState) (now : Nat)
      (id league_id page phase : String),
      handle_fixtures world b st now =
        ⟨fetch_with_fallback world b fixtures_url (some fixtures_backup_url)
          (some "fixtures"), st, true⟩ ∧
      handle_element_summary world b st now id =
        ⟨fetch_with_fallback world b (element_summary_url id) none none,
          st, true⟩ ∧
      handle_manager_info world b st now id =
        ⟨fetch_with_fallback world b (manager_info_url id) none none,
          st, true⟩ ∧
      handle_manager_transfers world b st now id =
        ⟨fetch_with_fallback world b (manager_transfers_url id) none none,
          st, true⟩ ∧
      handle_manager_history world b st now id =
        ⟨fetch_with_fallback world b (manager_history_url id) none none,
          st, true⟩ ∧
      handle_league_standings world b st now league_id page =
        ⟨fetch_with_fallback world b (league_standings_url league_id page)
          none none, st, true⟩ ∧
      handle_league_standings_by_phase world b st now league_id phase =
        ⟨fetch_with_fallback world b
          (league_standings_by_phase_url league_id phase) none none,
          st, true⟩ := by
  intro world b st now id league_id page phase
  exact ⟨rfl, rfl, rfl, rfl, rfl, rfl, rfl⟩

/-- Strings with equal character data are equal. -/
theorem string_data_inj {s t : String} (h : s.data = t.data) : s = t := by
  cases s; cases t; exact congrArg String.mk h

/-- Character data of a live-event cache key. -/
theorem live_event_key_data (gw : String) :
    (live_event_cache_key gw).data = "live-event-".data ++ gw.data := rfl

/-- Character data of a picks cache key: the fixed marker, then the
manager id, a hyphen separator, and the gameweek. -/
theorem picks_key_data (m gw : String) :
    (picks_cache_key m gw).data =
      "picks-".data ++ (m.data ++ ('-' :: gw.data)) := by
  show (("picks-".data ++ m.data) ++ ['-']) ++ gw.data = _
  simp [List.append_assoc]

/-- Splitting at a separator character is unambiguous when neither
left-hand part contains the separator. -/
theorem sep_split (sep : Char) :
    ∀ (a1 b1 a2 b2 : List Char), sep ∉ a1 → sep ∉ a2 →
      a1 ++ sep :: b1 = a2 ++ sep :: b2 → a1 = a2 ∧ b1 = b2 := by
  intro a1
  induction a1 with
  | nil =>
    intro b1 a2 b2 _ h2 h
    cases a2 with
    | nil => simpa using h
    | cons x a2 =>
      simp only [List.nil_append, List.cons_append, List.cons.injEq] at h
      rcases h with ⟨hx, _⟩
      subst hx
      exact absurd (List.mem_cons_self sep a2) h2
  | cons x a1 ih =>
    intro b1 a2 b2 h1 h2 h
    cases a2 with
    | nil =>
      simp only [List.nil_append, List.cons_append, List.cons.injEq] at h
      rcases h with ⟨hx, _⟩
      subst hx
      exact absurd (List.mem_cons_self x a1) h1
    | cons y a2 =>
      simp only [List.cons_append, List.cons.injEq] at h
      rcases h with ⟨hxy, h⟩
      subst hxy
      simp only [List.mem_cons, not_or] at h1 h2
      obtain ⟨ha1, ha2⟩ := ih b1 a2 b2 h1.2 h2.2 h
      exact ⟨by rw [ha1], ha2⟩

/-- A parameter value that contains no hyphen character; manager ids and
gameweek numbers are numeric in practice, hence hyphen-free. -/
def hyphen_free (s : String) : Prop := ('-') ∉ s.data

/-- Distinct live-event gameweeks give distinct cache keys. -/
theorem live_event_key_inj (g1 g2 : String)
    (h : live_event_cache_key g1 = live_event_cache_key g2) : g1 = g2 := by
  have hd := congrArg String.data h
  rw [live_event_key_data, live_event_key_data] at hd
  exact string_data_inj (List.append_cancel_left hd)

/-- Counterexample to C7: with hyphenated parameter values the picks
cache keys of two distinct logical queries collide. Manager 1-2 in
gameweek 3 and manager 1 in gameweek 2-3 both map to picks-1-2-3. -/
theorem claim7_counterexample :
    picks_cache_key "1-2" "3" = picks_cache_key "1" "2-3" ∧
    ("1-2", "3") ≠ (("1", "2-3") : String × String) :=
  ⟨by decide, by decide⟩

/-- C7 as amended: identical logical queries always give identical keys
(the key builders are functions), and distinct queries never collide
provided the manager-id parameter is hyphen-free (as every numeric id
is): the live-event key is injective in the gameweek, the picks key is
injective in the pair of parameters, and the bootstrap-static, live-event
and picks key families are pairwise disjoint. Without the hyphen-free
restriction, picks keys for distinct queries can collide. -/
theorem claim7_amended_key_uniqueness :
    (∀ g1 g2 : String,
      live_event_cache_key g1 = live_event_cache_key g2 → g1 = g2) ∧
    (∀ m1 g1 m2 g2 : String, hyphen_free m1 → hyphen_free m2 →
      picks_cache_key m1 g1 = picks_cache_key m2 g2 → m1 = m2 ∧ g1 = g2) ∧
    (∀ g : String, live_event_cache_key g ≠ bootstrap_cache_key) ∧
    (∀ m g : String, picks_cache_key m g ≠ bootstrap_cache_key) ∧
    (∀ m g g3 : String, picks_cache_key m g ≠ live_event_cache_key g3) := by
  refine ⟨live_event_key_inj, ?_, ?_, ?_, ?_⟩
  · intro m1 g1 m2 g2 hm1 hm2 h
    have hd := congrArg String.data h
    rw [picks_key_data, picks_key_data] at hd
    have hc := List.append_cancel_left hd
    obtain ⟨h1, h2⟩ := sep_split '-' m1.data g1.data m2.data g2.data hm1 hm2 hc
    exact ⟨string_data_inj h1, string_data_inj h2⟩
  · intro g h
    have hd := congrArg String.data h
    rw [live_event_key_data] at hd
    have hh : (some 'l' : Option Char) = some 'b' := congrArg List.head? hd
    simp at hh
  · intro m g h
    have hd := congrArg String.data h
    rw [picks_key_data] at hd
    have hh : (some 'p' : Option Char) = some 'b' := congrArg List.head? hd
    simp at hh
  · intro m g g3 h
    have hd := congrArg String.data h
    rw [picks_key_data, live_event_key_data] at hd
    have hh : (some 'p' : Option Char) = some 'l' := congrArg List.head? hd
    simp at hh

/-- Witness for the amended C7: numeric parameters are hyphen-free, and
equal keys for manager 7, gameweek 12 recover the parameters. -/
theorem claim7_witness :
    hyphen_free "7" ∧ hyphen_free "12" ∧
    (("7" : String) = "7" ∧ ("12" : String) = "12") :=
  ⟨by unfold hyphen_free; decide, by unfold hyphen_free; decide,
    claim7_amended_key_uniqueness.2.1 "7" "12" "7" "12"
      (by unfold hyphen_free; decide) (by unfold hyphen_free; decide) rfl⟩

/-- One insertion never leaves more than the configured maximum number
of entries in the cache. -/
theorem cache_insert_length_le (st : CacheState) (now : Nat) (k : String)
    (v : Json) : (cache_insert st now k v).length ≤ MAX_CAPACITY := by
  have h := List.length_take_le (MAX_CAPACITY - 1)
    (st.filter (fun e => e.1 != k))
  simp only [MAX_CAPACITY] at h
  simp only [cache_insert, List.length_cons, MAX_CAPACITY]
  omega

/-- C8: capacity bound. A single insertion into any cache state yields
at most 1000 resident entries, and any sequence of insertions starting
from the empty cache — in particular any sequence of distinct keys —
never leaves more than 1000 resident entries. -/
theorem claim8_capacity_bound :
    (∀ (st : CacheState) (now : Nat) (k : String) (v : Json),
      (cache_insert st now k v).length ≤ MAX_CAPACITY) ∧
    (∀ ops : List (String × Json × Nat),
      (ops.foldl (fun st op => cache_insert st op.2.2 op.1 op.2.1)
        emptyCache).length ≤ MAX_CAPACITY) := by
  constructor
  · exact cache_insert_length_le
  · have key : ∀ (ops : List (String × Json × Nat)) (st : CacheState),
        st.length ≤ MAX_CAPACITY →
        (ops.foldl (fun st op => cache_insert st op.2.2 op.1 op.2.1)
          st).length ≤ MAX_CAPACITY := by
      intro ops
      induction ops with
      | nil => intro st h; simpa using h
      | cons op ops ih =>
        intro st _
        exact ih (cache_insert st op.2.2 op.1 op.2.1)
          (cache_insert_length_le st op.2.2 op.1 op.2.1)
    intro ops
    exact key ops emptyCache (by simp [emptyCache, MAX_CAPACITY])

/-- C10: the live-event snapshot is shared across gameweeks. Distinct
gameweeks get distinct cache keys, yet every live-event resolution
passes the same snapshot key, so when the primary fetches for two
distinct gameweeks both fail with an overload signal (and both keys are
cache misses), both resolutions return the identical snapshot payload. -/
theorem claim10_live_snapshot_shared :
    ∀ (world : World) (b : BackupFiles) (st : CacheState) (now : Nat)
      (gw1 gw2 : String) (data : Json),
      gw1 ≠ gw2 →
      b.liveEvent = some data →
      primary_overload world (live_event_url gw1) = true →
      primary_overload world (live_event_url gw2) = true →
      cache_get st now (live_event_cache_key gw1) = none →
      cache_get st now (live_event_cache_key gw2) = none →
      live_event_cache_key gw1 ≠ live_event_cache_key gw2 ∧
      (handle_live_event world b st now gw1).response = Except.ok data ∧
      (handle_live_event world b st now gw2).response = Except.ok data := by
  intro world b st now gw1 gw2 data hgw hb hov1 hov2 hm1 hm2
  have hkey : live_event_cache_key gw1 ≠ live_event_cache_key gw2 :=
    fun h => hgw (live_event_key_inj gw1 gw2 h)
  have hap1 : attempt_payload world (live_event_url gw1) = none :=
    attempt_payload_eq_none_of_overload world (live_event_url gw1) hov1
  have hap2 : attempt_payload world (live_event_url gw2) = none :=
    attempt_payload_eq_none_of_overload world (live_event_url gw2) hov2
  refine ⟨hkey, ?_, ?_⟩
  · simp [handle_live_event, get_cached_or_fetch, hm1, fetch_with_fallback,
      fetch_with_fallback_traced, hap1, hov1, snapshot_tier,
      load_backup_data, hb]
  · simp [handle_live_event, get_cached_or_fetch, hm2, fetch_with_fallback,
      fetch_with_fallback_traced, hap2, hov2, snapshot_tier,
      load_backup_data, hb]

/-- Witness for C10: with every GET failing at the transport level and
an empty cache, gameweeks 1 and 2 both serve the identical live-event
snapshot payload under distinct cache keys. -/
theorem claim10_witness :
    live_event_cache_key "1" ≠ live_event_cache_key "2" ∧
    (handle_live_event wDead bEx emptyCache 0 "1").response =
      Except.ok (Json.str "live-event-backup") ∧
    (handle_live_event wDead bEx emptyCache 0 "2").response =
      Except.ok (Json.str "live-event-backup") :=
  claim10_live_snapshot_shared wDead bEx emptyCache 0 "1" "2"
    (Json.str "live-event-backup") (by decide) rfl rfl rfl rfl rfl
